import Mathlib

/-!
Shallow embedding of the bhyve-home-assistant integration: the JSON-like
value model used by the coordinator event merge, the websocket client
state machine, the REST client polling and login logic, and the utility
hash function.  Each definition is translated from the corresponding
Python source file under custom_components/bhyve.
-/

/-- A Python/JSON value as it appears in event payloads and API responses.
`none` is the Python value None / JSON null. -/
inductive Val where
  | str : String → Val
  | num : Int → Val
  | bool : Bool → Val
  | none : Val
  | list : List Val → Val
  | dict : List (String × Val) → Val

/-- Python truthiness of a value (`if not x`). -/
def Val.truthy : Val → Bool
  | .str s => s ≠ ""
  | .num n => n ≠ 0
  | .bool b => b
  | .none => false
  | .list l => !l.isEmpty
  | .dict d => !d.isEmpty

mutual

/-- Structural equality test on values, modelling the Python equality used
by dict key lookup. -/
def Val.beq : Val → Val → Bool
  | .str a, .str b => a = b
  | .num a, .num b => a = b
  | .bool a, .bool b => a = b
  | .none, .none => true
  | .list a, .list b => Val.beqL a b
  | .dict a, .dict b => Val.beqD a b
  | _, _ => false

/-- Pointwise equality test on value lists. -/
def Val.beqL : List Val → List Val → Bool
  | [], [] => true
  | a :: as, b :: bs => Val.beq a b && Val.beqL as bs
  | _, _ => false

/-- Pointwise equality test on key/value pair lists. -/
def Val.beqD : List (String × Val) → List (String × Val) → Bool
  | [], [] => true
  | (k, v) :: as, (k', v') :: bs => k = k' && Val.beq v v' && Val.beqD as bs
  | _, _ => false

end

/-- A Python dict with string keys, as an association list. -/
abbrev Dict := List (String × Val)

/-- `d.get(k)`: first binding of the key, if any. -/
def dget (d : Dict) (k : String) : Option Val :=
  match d with
  | [] => Option.none
  | (k', v) :: rest => if k' = k then some v else dget rest k

/-- `d[k] = v`: replace the binding of `k` in place, or append it. -/
def dset (d : Dict) (k : String) (v : Val) : Dict :=
  match d with
  | [] => [(k, v)]
  | (k', v') :: rest => if k' = k then (k, v) :: rest else (k', v') :: dset rest k v

/-- `del d[k]`: remove the binding of the key. -/
def ddel (d : Dict) (k : String) : Dict :=
  match d with
  | [] => []
  | (k', v') :: rest => if k' = k then rest else (k', v') :: ddel rest k

/-- `d.update(e)`: set every binding of `e` into `d`, in order. -/
def dupdate (d e : Dict) : Dict :=
  e.foldl (fun acc p => dset acc p.1 p.2) d

/-- The keys of a dict. -/
def dkeys (d : Dict) : List String := d.map Prod.fst

theorem dget_dset_self (d : Dict) (k : String) (v : Val) :
    dget (dset d k v) k = some v := by
  induction d with
  | nil => simp [dset, dget]
  | cons p rest ih =>
    obtain ⟨pk, pv⟩ := p
    by_cases h : pk = k
    · simp [dset, dget, h]
    · simp [dset, dget, h, ih]

theorem dget_dset_other (d : Dict) (k k' : String) (v : Val) (hne : k' ≠ k) :
    dget (dset d k v) k' = dget d k' := by
  induction d with
  | nil => simp [dset, dget, Ne.symm hne]
  | cons p rest ih =>
    obtain ⟨pk, pv⟩ := p
    by_cases h : pk = k
    · subst h
      have hpk : pk ≠ k' := fun he => hne he.symm
      simp [dset, dget, hpk]
    · by_cases h' : pk = k'
      · simp [dset, dget, h, h', hne]
      · simp [dset, dget, h, h', ih]

theorem dget_eq_none_of_not_mem (d : Dict) (k : String) (h : k ∉ dkeys d) :
    dget d k = Option.none := by
  induction d with
  | nil => rfl
  | cons p rest ih =>
    simp only [dkeys, List.map_cons, List.mem_cons] at h
    push_neg at h
    have hp : p.1 ≠ k := Ne.symm h.1
    simp only [dget, if_neg hp]
    exact ih h.2

theorem dget_dupdate (d e : Dict) (k : String) (hnd : (dkeys e).Nodup) :
    dget (dupdate d e) k = ((dget e k).or (dget d k)) := by
  induction e generalizing d with
  | nil => simp [dupdate, dget]
  | cons p rest ih =>
    obtain ⟨hmem, hrest⟩ := List.nodup_cons.mp hnd
    have step : dupdate d (p :: rest) = dupdate (dset d p.1 p.2) rest := by
      simp [dupdate]
    rw [step, ih _ hrest]
    by_cases h : p.1 = k
    · subst h
      have hnone : dget rest p.1 = Option.none :=
        dget_eq_none_of_not_mem rest p.1 hmem
      simp [dget, hnone, dget_dset_self]
    · have hk : k ≠ p.1 := fun he => h he.symm
      simp [dget, h, dget_dset_other d p.1 k p.2 hk]

theorem dget_ddel_self (d : Dict) (k : String) (hnd : (dkeys d).Nodup) :
    dget (ddel d k) k = Option.none := by
  induction d with
  | nil => rfl
  | cons p rest ih =>
    obtain ⟨hmem, hrest⟩ := List.nodup_cons.mp hnd
    by_cases h : p.1 = k
    · subst h
      simp only [ddel, if_pos rfl]
      exact dget_eq_none_of_not_mem rest p.1 hmem
    · simp only [ddel, if_neg h, dget, if_neg h]
      exact ih hrest

theorem dget_ddel_other (d : Dict) (k k' : String) (hne : k' ≠ k) :
    dget (ddel d k) k' = dget d k' := by
  induction d with
  | nil => rfl
  | cons p rest ih =>
    by_cases h : p.1 = k
    · subst h
      have hp : p.1 ≠ k' := fun he => hne he.symm
      simp [ddel, dget, hp]
    · by_cases h' : p.1 = k'
      · simp [ddel, dget, h, h', hne]
      · simp [ddel, dget, h, h', ih]

theorem dkeys_dset (d : Dict) (k : String) (v : Val) :
    dkeys (dset d k v) = if k ∈ dkeys d then dkeys d else dkeys d ++ [k] := by
  induction d with
  | nil => simp [dset, dkeys]
  | cons p rest ih =>
    by_cases h : p.1 = k
    · simp [dset, dkeys, h]
    · have hk : k ≠ p.1 := fun he => h he.symm
      simp only [dset, if_neg h, dkeys, List.map_cons, List.mem_cons]
      rw [show List.map Prod.fst (dset rest k v) = dkeys (dset rest k v) from rfl, ih]
      by_cases h' : k ∈ List.map Prod.fst rest
      · simp [show k ∈ dkeys rest from h', h', hk, dkeys]
      · simp [show k ∉ dkeys rest from h', h', hk, dkeys]

theorem dkeys_nodup_dset (d : Dict) (k : String) (v : Val)
    (hnd : (dkeys d).Nodup) : (dkeys (dset d k v)).Nodup := by
  rw [dkeys_dset]
  by_cases h : k ∈ dkeys d
  · simpa [h] using hnd
  · simp only [if_neg h]
    exact List.Nodup.append hnd (List.nodup_singleton k) (by simpa using h)

/-! ## Coordinator data model (coordinator.py) -/

/-- Lookup in a Python dict keyed by arbitrary values (device/program ids). -/
def vget {α : Type} (m : List (Val × α)) (k : Val) : Option α :=
  match m with
  | [] => Option.none
  | (k', v) :: rest => if Val.beq k' k then some v else vget rest k

/-- In-place mutation of the entry stored under key `k`, as Python mutates
the dict object obtained from the snapshot. -/
def vmodify {α : Type} (m : List (Val × α)) (k : Val) (f : α → α) : List (Val × α) :=
  m.map (fun p => if Val.beq p.1 k then (p.1, f p.2) else p)

theorem vget_vmodify {α : Type} (m : List (Val × α)) (k : Val) (f : α → α) :
    vget (vmodify m k f) k = (vget m k).map f := by
  induction m with
  | nil => rfl
  | cons p rest ih =>
    have hmap : vmodify (p :: rest) k f =
        (if Val.beq p.1 k = true then (p.1, f p.2) else p) :: vmodify rest k f := rfl
    rw [hmap]
    by_cases h : Val.beq p.1 k = true
    · rw [if_pos h]
      show (if Val.beq p.1 k = true then some (f p.2) else vget (vmodify rest k f) k) =
        Option.map f (if Val.beq p.1 k = true then some p.2 else vget rest k)
      rw [if_pos h, if_pos h]
      rfl
    · rw [if_neg h]
      show (if Val.beq p.1 k = true then some p.2 else vget (vmodify rest k f) k) =
        Option.map f (if Val.beq p.1 k = true then some p.2 else vget rest k)
      rw [if_neg h, if_neg h, ih]

/-- const.py: `DEVICE_SPRINKLER`. -/
def DEVICE_SPRINKLER : String := "sprinkler_timer"
/-- const.py: `EVENT_CHANGE_MODE`. -/
def EVENT_CHANGE_MODE : String := "change_mode"
/-- const.py: `EVENT_DEVICE_IDLE`. -/
def EVENT_DEVICE_IDLE : String := "device_idle"
/-- const.py: `EVENT_RAIN_DELAY`. -/
def EVENT_RAIN_DELAY : String := "rain_delay"
/-- const.py: `EVENT_SET_MANUAL_PRESET_TIME`. -/
def EVENT_SET_MANUAL_PRESET_TIME : String := "set_manual_preset_runtime"
/-- const.py: `EVENT_WATERING_COMPLETE`. -/
def EVENT_WATERING_COMPLETE : String := "watering_complete"
/-- const.py: `EVENT_WATERING_IN_PROGRESS`. -/
def EVENT_WATERING_IN_PROGRESS : String := "watering_in_progress_notification"
/-- Modelled from the spec: coordinator.py imports `EVENT_BATTERY_STATUS`
from const.py but the const.py snapshot under src does not define it; the
spec and the handler treat it as the battery status event tag. -/
def EVENT_BATTERY_STATUS : String := "battery_status"
/-- Modelled from the spec: coordinator.py imports `EVENT_FS_ALARM`
from const.py but the const.py snapshot under src does not define it; the
spec and the handler treat it as the flood sensor alarm event tag. -/
def EVENT_FS_ALARM : String := "fs_alarm"

/-- One entry of `data["devices"]`, built by `_async_update_data`. -/
structure DeviceEntry where
  device : Dict
  history : Val
  landscapes : Val

/-- The coordinator snapshot `self.data`. -/
structure CoordData where
  devices : List (Val × DeviceEntry)
  programs : List (Val × Dict)

/-- The string value of `event_data.get("event")`, when it is a string. -/
def evName (ev : Dict) : Option String :=
  match dget ev "event" with
  | some (.str s) => some s
  | _ => Option.none

/-- Retrieve the status dict the handler mutates; `[]` both when the key is
absent (the handler inserts `\x7b\x7d` first) and in the error case. -/
def statusOf (dev : Dict) : Dict :=
  match dget dev "status" with
  | some (.dict s) => s
  | _ => []

/-- The stored status is absent or a dict; when it is any other value the
Python handler raises instead of merging. -/
def statusOk (dev : Dict) : Bool :=
  match dget dev "status" with
  | Option.none => true
  | some (.dict _) => true
  | some _ => false

/-- Ensure `device_data["status"]` exists, then transform it.  Returns
`Option.none` when the stored status is neither absent nor a dict, in which
case the Python code raises before mutating anything. -/
def withStatus (dev : Dict) (f : Dict → Dict) : Option Dict :=
  match dget dev "status" with
  | Option.none => some (dset dev "status" (.dict (f [])))
  | some (.dict s) => some (dset dev "status" (.dict (f s)))
  | some _ => Option.none

/-- The event-type dispatch of `async_handle_device_event`
(coordinator.py lines 214-264) acting on one stored device dict. -/
def mergeDeviceEvent (dev : Dict) (ev : Dict) : Option Dict :=
  if evName ev = some EVENT_BATTERY_STATUS then
    match dget ev "battery" with
    | some b => some (dset dev "battery" b)
    | Option.none => some dev
  else if evName ev = some EVENT_CHANGE_MODE then
    withStatus dev (fun st => dupdate st ev)
  else if evName ev = some EVENT_DEVICE_IDLE then
    withStatus dev (fun st =>
      let st1 := dset st "run_mode" (.str "off")
      if "watering_status" ∈ dkeys st1 then ddel st1 "watering_status" else st1)
  else if evName ev = some EVENT_WATERING_IN_PROGRESS then
    withStatus dev (fun st =>
      dset (dset st "watering_status" ((dget ev "program").getD (.dict [])))
        "run_mode" ((dget ev "mode").getD (.str "manual")))
  else if evName ev = some EVENT_WATERING_COMPLETE then
    withStatus dev (fun st =>
      dset (if "watering_status" ∈ dkeys st then ddel st "watering_status" else st)
        "run_mode" (.str "off"))
  else if evName ev = some EVENT_RAIN_DELAY then
    withStatus dev (fun st => dset st "rain_delay" ((dget ev "delay").getD (.num 0)))
  else if evName ev = some EVENT_FS_ALARM then
    withStatus dev (fun st => dupdate st ev)
  else if evName ev = some EVENT_SET_MANUAL_PRESET_TIME then
    withStatus dev (fun st =>
      dset st "manual_preset_runtime" ((dget ev "runtime").getD .none))
  else
    some dev

/-- `BHyveDataUpdateCoordinator.async_handle_device_event`: merge a device
event into the snapshot; the Bool records whether `async_set_updated_data`
notified the subscribers. -/
def async_handle_device_event (data : Option CoordData) (ev : Dict) :
    Option CoordData × Bool :=
  match data with
  | Option.none => (Option.none, false)
  | some d =>
    match dget ev "device_id" with
    | Option.none => (some d, false)
    | some did =>
      if !did.truthy then (some d, false)
      else
        match vget d.devices did with
        | Option.none => (some d, false)
        | some entry =>
          match mergeDeviceEvent entry.device ev with
          | Option.none => (some d, false)
          | some dev' =>
            (some { d with
                devices := vmodify d.devices did (fun e => { e with device := dev' }) },
              true)

/-- Resolution of the program id of a program event
(coordinator.py lines 275-281): `program_id`, else the id of the nested
`program` dict. -/
def progFromProgram (ev : Dict) : Option Val :=
  match (dget ev "program").getD (.dict []) with
  | .dict p => dget p "id"
  | _ => Option.none

/-- The program id a program event resolves to before the truthiness and
membership checks. -/
def eventProgramId (ev : Dict) : Option Val :=
  match dget ev "program_id" with
  | some v => if v.truthy then some v else progFromProgram ev
  | Option.none => progFromProgram ev

/-- `BHyveDataUpdateCoordinator.async_handle_program_event`. -/
def async_handle_program_event (data : Option CoordData) (ev : Dict) :
    Option CoordData × Bool :=
  match data with
  | Option.none => (Option.none, false)
  | some d =>
    match eventProgramId ev with
    | Option.none => (some d, false)
    | some pid =>
      if !pid.truthy then (some d, false)
      else
        match vget d.programs pid with
        | Option.none => (some d, false)
        | some _ =>
          match dget ev "program" with
          | some (.dict pdata) =>
            (some { d with
                programs := vmodify d.programs pid (fun p => dupdate p pdata) },
              true)
          | _ =>
            match dget ev "enabled" with
            | some en =>
              (some { d with
                  programs := vmodify d.programs pid (fun p => dset p "enabled" en) },
                true)
            | Option.none => (some d, true)

/-- The device dict stored under `did` in a handler result. -/
def resultDevice (r : Option CoordData × Bool) (did : Val) : Option Dict :=
  match r.1 with
  | some d => (vget d.devices did).map DeviceEntry.device
  | Option.none => Option.none

/-- The program dict stored under `pid` in a handler result. -/
def resultProgram (r : Option CoordData × Bool) (pid : Val) : Option Dict :=
  match r.1 with
  | some d => vget d.programs pid
  | Option.none => Option.none

/-! ## C1 support: characterisation of the device event merge -/

theorem withStatus_eq (dev : Dict) (f : Dict → Dict) (hok : statusOk dev = true) :
    withStatus dev f = some (dset dev "status" (.dict (f (statusOf dev)))) := by
  unfold statusOk at hok
  unfold withStatus statusOf
  rcases hd : dget dev "status" with _ | v
  · simp [hd]
  · rw [hd] at hok
    cases v with
    | dict s => simp [hd]
    | str s => simp at hok
    | num n => simp at hok
    | bool b => simp at hok
    | none => simp at hok
    | list l => simp at hok

theorem statusOf_dset (dev : Dict) (x : Dict) :
    statusOf (dset dev "status" (.dict x)) = x := by
  unfold statusOf
  rw [dget_dset_self]

theorem mergeDeviceEvent_isSome (dev ev : Dict) (hok : statusOk dev = true) :
    (mergeDeviceEvent dev ev).isSome = true := by
  unfold mergeDeviceEvent
  split_ifs
  · rcases dget ev "battery" with _ | b <;> simp
  all_goals simp [withStatus_eq _ _ hok]

/-- The observable effect, claimed by the spec, of merging one device event
into the stored device dict, by event type. -/
def DeviceEventMergeSpec (ev dev dev' : Dict) : Prop :=
  (evName ev = some EVENT_BATTERY_STATUS →
    ∀ b, dget ev "battery" = some b → dget dev' "battery" = some b) ∧
  ((evName ev = some EVENT_CHANGE_MODE ∨ evName ev = some EVENT_FS_ALARM) →
    (dkeys ev).Nodup →
    ∀ k, dget (statusOf dev') k = ((dget ev k).or (dget (statusOf dev) k))) ∧
  ((evName ev = some EVENT_DEVICE_IDLE ∨ evName ev = some EVENT_WATERING_COMPLETE) →
    (dkeys (statusOf dev)).Nodup →
    dget (statusOf dev') "run_mode" = some (.str "off") ∧
    dget (statusOf dev') "watering_status" = Option.none) ∧
  (evName ev = some EVENT_WATERING_IN_PROGRESS →
    dget (statusOf dev') "watering_status" = some ((dget ev "program").getD (.dict [])) ∧
    dget (statusOf dev') "run_mode" = some ((dget ev "mode").getD (.str "manual"))) ∧
  (evName ev = some EVENT_RAIN_DELAY →
    dget (statusOf dev') "rain_delay" = some ((dget ev "delay").getD (.num 0))) ∧
  (evName ev = some EVENT_SET_MANUAL_PRESET_TIME →
    dget (statusOf dev') "manual_preset_runtime" = some ((dget ev "runtime").getD .none))


theorem mergeDeviceEvent_spec (dev ev dev' : Dict) (hok : statusOk dev = true)
    (hm : mergeDeviceEvent dev ev = some dev') :
    DeviceEventMergeSpec ev dev dev' := by
  unfold mergeDeviceEvent at hm
  refine ⟨?_, ?_, ?_, ?_, ?_, ?_⟩
  · -- battery_status
    intro hevn b hb
    rw [hevn] at hm
    simp only [EVENT_BATTERY_STATUS, EVENT_CHANGE_MODE, EVENT_DEVICE_IDLE,
      EVENT_WATERING_IN_PROGRESS, EVENT_WATERING_COMPLETE, EVENT_RAIN_DELAY,
      EVENT_FS_ALARM, EVENT_SET_MANUAL_PRESET_TIME,
      Option.some.injEq, String.reduceEq, reduceIte] at hm
    rw [hb] at hm
    have hx : dset dev "battery" b = dev' := Option.some_inj.mp hm
    subst hx
    exact dget_dset_self dev "battery" b
  · -- change_mode / fs_alarm: dict update of the status
    intro hevn hnd k
    have hm' : withStatus dev (fun st => dupdate st ev) = some dev' := by
      rcases hevn with hevn | hevn <;>
        rw [hevn] at hm <;>
        simp only [EVENT_BATTERY_STATUS, EVENT_CHANGE_MODE, EVENT_DEVICE_IDLE,
          EVENT_WATERING_IN_PROGRESS, EVENT_WATERING_COMPLETE, EVENT_RAIN_DELAY,
          EVENT_FS_ALARM, EVENT_SET_MANUAL_PRESET_TIME,
          String.reduceEq, Option.some.injEq, reduceIte] at hm <;>
        exact hm
    rw [withStatus_eq dev _ hok] at hm'
    have hx := Option.some_inj.mp hm'
    rw [← hx, statusOf_dset]
    exact dget_dupdate _ ev k hnd
  · -- device_idle / watering_complete
    intro hevn hnd
    rcases hevn with hevn | hevn
    · -- device_idle: set run_mode, then delete watering_status if present
      rw [hevn] at hm
      simp only [EVENT_BATTERY_STATUS, EVENT_CHANGE_MODE, EVENT_DEVICE_IDLE,
        EVENT_WATERING_IN_PROGRESS, EVENT_WATERING_COMPLETE, EVENT_RAIN_DELAY,
        EVENT_FS_ALARM, EVENT_SET_MANUAL_PRESET_TIME,
        String.reduceEq, Option.some.injEq, reduceIte] at hm
      rw [withStatus_eq dev _ hok] at hm
      have hx := Option.some_inj.mp hm
      rw [← hx, statusOf_dset]
      by_cases hmem :
          "watering_status" ∈ dkeys (dset (statusOf dev) "run_mode" (.str "off"))
      · simp only [if_pos hmem]
        exact ⟨by rw [dget_ddel_other _ _ _ (by simp), dget_dset_self],
          dget_ddel_self _ _ (dkeys_nodup_dset _ _ _ hnd)⟩
      · simp only [if_neg hmem]
        exact ⟨dget_dset_self _ _ _, dget_eq_none_of_not_mem _ _ hmem⟩
    · -- watering_complete: delete watering_status if present, then set run_mode
      rw [hevn] at hm
      simp only [EVENT_BATTERY_STATUS, EVENT_CHANGE_MODE, EVENT_DEVICE_IDLE,
        EVENT_WATERING_IN_PROGRESS, EVENT_WATERING_COMPLETE, EVENT_RAIN_DELAY,
        EVENT_FS_ALARM, EVENT_SET_MANUAL_PRESET_TIME,
        String.reduceEq, Option.some.injEq, reduceIte] at hm
      rw [withStatus_eq dev _ hok] at hm
      have hx := Option.some_inj.mp hm
      rw [← hx, statusOf_dset]
      by_cases hmem : "watering_status" ∈ dkeys (statusOf dev)
      · simp only [if_pos hmem]
        exact ⟨dget_dset_self _ _ _,
          by rw [dget_dset_other _ _ _ _ (by simp)]; exact dget_ddel_self _ _ hnd⟩
      · simp only [if_neg hmem]
        exact ⟨dget_dset_self _ _ _,
          by rw [dget_dset_other _ _ _ _ (by simp)]
             exact dget_eq_none_of_not_mem _ _ hmem⟩
  · -- watering_in_progress
    intro hevn
    rw [hevn] at hm
    simp only [EVENT_BATTERY_STATUS, EVENT_CHANGE_MODE, EVENT_DEVICE_IDLE,
      EVENT_WATERING_IN_PROGRESS, EVENT_WATERING_COMPLETE, EVENT_RAIN_DELAY,
      EVENT_FS_ALARM, EVENT_SET_MANUAL_PRESET_TIME,
      String.reduceEq, Option.some.injEq, reduceIte] at hm
    rw [withStatus_eq dev _ hok] at hm
    have hx := Option.some_inj.mp hm
    rw [← hx, statusOf_dset]
    exact ⟨by rw [dget_dset_other _ _ _ _ (by simp), dget_dset_self],
      dget_dset_self _ _ _⟩
  · -- rain_delay
    intro hevn
    rw [hevn] at hm
    simp only [EVENT_BATTERY_STATUS, EVENT_CHANGE_MODE, EVENT_DEVICE_IDLE,
      EVENT_WATERING_IN_PROGRESS, EVENT_WATERING_COMPLETE, EVENT_RAIN_DELAY,
      EVENT_FS_ALARM, EVENT_SET_MANUAL_PRESET_TIME,
      String.reduceEq, Option.some.injEq, reduceIte] at hm
    rw [withStatus_eq dev _ hok] at hm
    have hx := Option.some_inj.mp hm
    rw [← hx, statusOf_dset]
    exact dget_dset_self _ _ _
  · -- set_manual_preset_runtime
    intro hevn
    rw [hevn] at hm
    simp only [EVENT_BATTERY_STATUS, EVENT_CHANGE_MODE, EVENT_DEVICE_IDLE,
      EVENT_WATERING_IN_PROGRESS, EVENT_WATERING_COMPLETE, EVENT_RAIN_DELAY,
      EVENT_FS_ALARM, EVENT_SET_MANUAL_PRESET_TIME,
      String.reduceEq, Option.some.injEq, reduceIte] at hm
    rw [withStatus_eq dev _ hok] at hm
    have hx := Option.some_inj.mp hm
    rw [← hx, statusOf_dset]
    exact dget_dset_self _ _ _

theorem handle_device_event_known (d : CoordData) (ev : Dict) (did : Val)
    (entry : DeviceEntry) (dev' : Dict)
    (hdid : dget ev "device_id" = some did) (htr : did.truthy = true)
    (hvget : vget d.devices did = some entry)
    (hm : mergeDeviceEvent entry.device ev = some dev') :
    async_handle_device_event (some d) ev =
      (some { d with devices := vmodify d.devices did (fun e => { e with device := dev' }) }, true) := by
  simp [async_handle_device_event, hdid, htr, hvget, hm]

theorem handle_device_event_ignored (d : CoordData) (ev : Dict)
    (h : dget ev "device_id" = Option.none ∨
      (∃ did, dget ev "device_id" = some did ∧
        (did.truthy = false ∨ vget d.devices did = Option.none))) :
    async_handle_device_event (some d) ev = (some d, false) := by
  rcases h with h | ⟨did, hdid, h⟩
  · simp [async_handle_device_event, h]
  · rcases h with h | h <;> simp [async_handle_device_event, hdid, h]

/-- C1: a device event whose device id is in the snapshot is merged into
that device entry according to its event type (battery copy for
battery_status, dict update for change_mode and fs_alarm, run_mode off and
watering_status removal for device_idle and watering_complete, program and
mode for watering_in_progress, delay for rain_delay, runtime for
set_manual_preset_runtime) and the subscribers are notified; an event with
a missing, falsy or unknown device id leaves the snapshot unchanged and
notifies nobody. -/
theorem C1_device_event_merge :
    (∀ (d : CoordData) (ev : Dict) (did : Val) (entry : DeviceEntry),
      dget ev "device_id" = some did → did.truthy = true →
      vget d.devices did = some entry → statusOk entry.device = true →
      (async_handle_device_event (some d) ev).2 = true ∧
      ∃ dev', resultDevice (async_handle_device_event (some d) ev) did = some dev' ∧
        DeviceEventMergeSpec ev entry.device dev') ∧
    (∀ (d : CoordData) (ev : Dict),
      (dget ev "device_id" = Option.none ∨
        (∃ did, dget ev "device_id" = some did ∧
          (did.truthy = false ∨ vget d.devices did = Option.none))) →
      async_handle_device_event (some d) ev = (some d, false)) := by
  constructor
  · intro d ev did entry hdid htr hvget hok
    obtain ⟨dev', hm⟩ :=
      Option.isSome_iff_exists.mp (mergeDeviceEvent_isSome entry.device ev hok)
    rw [handle_device_event_known d ev did entry dev' hdid htr hvget hm]
    refine ⟨rfl, dev', ?_, mergeDeviceEvent_spec entry.device ev dev' hok hm⟩
    unfold resultDevice
    simp only [vget_vmodify, hvget, Option.map_map, Option.map_some]
    rfl
  · exact handle_device_event_ignored

def wDev : Dict :=
  [("id", .str "d1"),
   ("status", .dict [("run_mode", .str "auto"),
                     ("watering_status", .dict [("program", .str "a")])])]
def wEntry : DeviceEntry := ⟨wDev, .list [], .dict []⟩
def wData : CoordData := ⟨[(.str "d1", wEntry)], []⟩
def wEvIdle : Dict := [("event", .str "device_idle"), ("device_id", .str "d1")]

/-- Witness for C1 at a concrete device_idle event. -/
theorem C1_device_event_merge_witness :
    (async_handle_device_event (some wData) wEvIdle).2 = true ∧
    ∃ dev', resultDevice (async_handle_device_event (some wData) wEvIdle)
        (.str "d1") = some dev' ∧
      DeviceEventMergeSpec wEvIdle wDev dev' :=
  C1_device_event_merge.1 wData wEvIdle (.str "d1") wEntry rfl rfl rfl rfl

/-! ## C5 support: program event merging -/

theorem handle_program_event_update (d : CoordData) (ev : Dict) (pid : Val)
    (pdata q : Dict)
    (hpid : eventProgramId ev = some pid) (htr : pid.truthy = true)
    (hq : vget d.programs pid = some q)
    (hprog : dget ev "program" = some (.dict pdata)) :
    async_handle_program_event (some d) ev =
      (some { d with programs := vmodify d.programs pid (fun p => dupdate p pdata) }, true) := by
  simp [async_handle_program_event, hpid, htr, hq, hprog]

theorem handle_program_event_ignored (d : CoordData) (ev : Dict)
    (h : eventProgramId ev = Option.none ∨
      (∃ pid, eventProgramId ev = some pid ∧
        (pid.truthy = false ∨ vget d.programs pid = Option.none))) :
    async_handle_program_event (some d) ev = (some d, false) := by
  rcases h with h | ⟨pid, hpid, h⟩
  · simp [async_handle_program_event, h]
  · rcases h with h | h <;> simp [async_handle_program_event, hpid, h]

/-- C5: two successive program events carrying program dicts for the same
stored program are merged by dict update, so keys in both take the later
value, keys only in the earlier event keep its value, and other keys keep
the polled value; an event whose program id is missing, falsy or unknown
leaves the snapshot unchanged. -/
theorem C5_program_event_last_write_wins :
    (∀ (d : CoordData) (ev1 ev2 : Dict) (pid : Val) (prog0 p1 p2 : Dict),
      eventProgramId ev1 = some pid → pid.truthy = true →
      vget d.programs pid = some prog0 →
      dget ev1 "program" = some (.dict p1) →
      eventProgramId ev2 = some pid →
      dget ev2 "program" = some (.dict p2) →
      (dkeys p1).Nodup → (dkeys p2).Nodup →
      (async_handle_program_event (some d) ev1).2 = true ∧
      (async_handle_program_event
        (async_handle_program_event (some d) ev1).1 ev2).2 = true ∧
      ∃ prog2, resultProgram (async_handle_program_event
          (async_handle_program_event (some d) ev1).1 ev2) pid = some prog2 ∧
        ∀ k, dget prog2 k = ((dget p2 k).or ((dget p1 k).or (dget prog0 k)))) ∧
    (∀ (d : CoordData) (ev : Dict),
      (eventProgramId ev = Option.none ∨
        (∃ pid, eventProgramId ev = some pid ∧
          (pid.truthy = false ∨ vget d.programs pid = Option.none))) →
      async_handle_program_event (some d) ev = (some d, false)) := by
  constructor
  · intro d ev1 ev2 pid prog0 p1 p2 hpid1 htr hprog0 hp1 hpid2 hp2 hnd1 hnd2
    rw [handle_program_event_update d ev1 pid p1 prog0 hpid1 htr hprog0 hp1]
    have hq1 : vget (vmodify d.programs pid (fun p => dupdate p p1)) pid =
        some (dupdate prog0 p1) := by
      rw [vget_vmodify, hprog0]
      rfl
    rw [handle_program_event_update _ ev2 pid p2 (dupdate prog0 p1) hpid2 htr hq1 hp2]
    refine ⟨rfl, rfl, dupdate (dupdate prog0 p1) p2, ?_, ?_⟩
    · unfold resultProgram
      simp only [vget_vmodify, hq1, Option.map_some]
      rfl
    · intro k
      rw [dget_dupdate _ p2 k hnd2, dget_dupdate _ p1 k hnd1]
  · exact handle_program_event_ignored

def wProg : Dict := [("id", .str "p1"), ("name", .str "orig"), ("budget", .num 1)]
def wPData : CoordData := ⟨[], [(.str "p1", wProg)]⟩
def wPEv1 : Dict := [("event", .str "program_changed"),
  ("program", .dict [("id", .str "p1"), ("name", .str "first"), ("x", .num 1)])]
def wPEv2 : Dict := [("program_id", .str "p1"),
  ("program", .dict [("id", .str "p1"), ("name", .str "second")])]

/-- Witness for C5 at two concrete program events. -/
theorem C5_program_event_last_write_wins_witness :
    (async_handle_program_event (some wPData) wPEv1).2 = true ∧
    (async_handle_program_event
      (async_handle_program_event (some wPData) wPEv1).1 wPEv2).2 = true ∧
    ∃ prog2, resultProgram (async_handle_program_event
        (async_handle_program_event (some wPData) wPEv1).1 wPEv2)
        (.str "p1") = some prog2 ∧
      ∀ k, dget prog2 k =
        ((dget [("id", Val.str "p1"), ("name", Val.str "second")] k).or
          ((dget [("id", Val.str "p1"), ("name", Val.str "first"), ("x", Val.num 1)] k).or
            (dget wProg k))) :=
  C5_program_event_last_write_wins.1 wPData wPEv1 wPEv2 (.str "p1") wProg
    [("id", Val.str "p1"), ("name", Val.str "first"), ("x", Val.num 1)]
    [("id", Val.str "p1"), ("name", Val.str "second")]
    rfl rfl rfl rfl rfl rfl (by decide) (by decide)

/-! ## Websocket client (pybhyve/websocket.py) -/

/-- The `self._state` values of `OrbitWebsocket` (`None` at construction,
then the three string constants). -/
inductive WsState where
  | unset
  | starting
  | running
  | stopped
deriving DecidableEq

/-- websocket.py line 15: `RECONNECT_DELAY = 5`. -/
def RECONNECT_DELAY : Nat := 5

/-- `OrbitWebsocket.retry` (lines 143-148): when not already starting, move
to starting and schedule `start` after the fixed delay; when already
starting, schedule nothing. -/
def retry (st : WsState) : WsState × Option Nat :=
  if st ≠ WsState.starting then (WsState.starting, some RECONNECT_DELAY)
  else (st, Option.none)

/-- The exit path of `OrbitWebsocket.running` (lines 130-136): both on an
exception and on normal loop exit, call `retry` unless stopped. -/
def runningExit (st : WsState) : WsState × Option Nat :=
  if st ≠ WsState.stopped then retry st else (st, Option.none)

/-- The reconnect delays scheduled over `n` failure cycles, each of which
opens the connection (the state becomes running) and then fails or
closes. -/
def reconnectDelays (n : Nat) : List Nat :=
  (List.range n).filterMap (fun _ => (runningExit WsState.running).2)

/-- aiohttp frame types distinguished by the receive loop. -/
inductive WSMsgType where
  | text
  | binary
  | ping
  | pong
  | close
  | closing
  | closed
  | error
deriving DecidableEq

/-- A received websocket frame; `data` is the JSON payload of a TEXT frame,
embedded already parsed (the loop passes `json.loads(msg.data)` to the
callback). -/
structure WSMsg where
  type : WSMsgType
  data : Val

/-- Observable effects of the receive loop (lines 99-120) on a list of
received frames: the payloads handed to the async callback in order, the
number of pongs sent, and whether a frame broke the loop. -/
structure LoopStep where
  callbackArgs : List Val
  pongs : Nat
  terminated : Bool

/-- The receive loop of `OrbitWebsocket.running`: TEXT frames are passed to
the callback, PING is answered with a pong, PONG is skipped, anything else
breaks the loop. -/
def processMessages : List WSMsg → LoopStep
  | [] => ⟨[], 0, false⟩
  | m :: rest =>
    match m.type with
    | .text =>
      let r := processMessages rest
      ⟨m.data :: r.callbackArgs, r.pongs, r.terminated⟩
    | .ping =>
      let r := processMessages rest
      ⟨r.callbackArgs, r.pongs + 1, r.terminated⟩
    | .pong => processMessages rest
    | _ => ⟨[], 0, true⟩

/-- The first frame `running` sends after connecting (lines 84-91). -/
def appConnectionFrame (token : Val) : Dict :=
  [("event", .str "app_connection"), ("orbit_session_token", token)]

/-- Result of one run of `OrbitWebsocket.running`. -/
structure RunResult where
  sent : List Dict
  callbackArgs : List Val
  pongs : Nat
  state : WsState
  scheduledDelay : Option Nat

/-- Outcome of the connection attempt: the connect or handshake raised, or
the connection opened and delivered `msgs` until the loop broke. -/
inductive ConnOutcome where
  | connectError
  | connected (msgs : List WSMsg)

/-- `OrbitWebsocket.running`: connect, send the handshake frame, receive
frames until a terminating frame, then (unless stopped) schedule a
reconnect.  `stExit` is the client state when the coroutine ends (`stop`
may have set it to stopped) and `laterFrames` are the frames the
concurrent heartbeat task sent after the handshake. -/
def running (stExit : WsState) (token : Val) (conn : ConnOutcome)
    (laterFrames : List Dict) : RunResult :=
  match conn with
  | .connectError =>
    let e := runningExit stExit
    ⟨[], [], 0, e.1, e.2⟩
  | .connected msgs =>
    let r := processMessages msgs
    let e := runningExit stExit
    ⟨appConnectionFrame token :: laterFrames, r.callbackArgs, r.pongs, e.1, e.2⟩

/-! ## Heartbeat machine (websocket.py lines 37-57) -/

/-- websocket.py line 34: `self._heartbeat = 25`. -/
def HEARTBEAT_INTERVAL : ℚ := 25

/-- The ping frame `_ping` sends. -/
def pingFrame : Dict := [("event", .str "ping")]

/-- Heartbeat bookkeeping: the live loop timers created by `call_at` for
`_send_heartbeat` (handle id and due time), the handle stored in
`self._heartbeat_cb`, whether the socket is closed, and the ping frames
sent so far.  Loop times are rationals, like the float clock of the event
loop. -/
structure HBState where
  timers : List (Nat × ℚ)
  hbCb : Option Nat
  nextId : Nat
  closed : Bool
  sent : List Dict

/-- `_cancel_heartbeat`: cancel the stored handle (a no-op on an
already-fired handle, which is no longer among the live timers). -/
def cancel_heartbeat (s : HBState) : HBState :=
  match s.hbCb with
  | some cb =>
    { s with timers := s.timers.filter (fun p => p.1 != cb), hbCb := Option.none }
  | Option.none => s

/-- `_reset_heartbeat`: cancel, then `call_at(ceil(now + heartbeat))`. -/
def reset_heartbeat (s : HBState) (now : ℚ) : HBState :=
  let s' := cancel_heartbeat s
  { s' with
    timers := s'.timers ++ [(s'.nextId, ((⌈now + HEARTBEAT_INTERVAL⌉ : ℤ) : ℚ))],
    hbCb := some s'.nextId,
    nextId := s'.nextId + 1 }

/-- `_send_heartbeat` together with the `_ping` task it spawns: when the
socket is open, send the ping frame and reset the heartbeat; when closed,
do nothing. -/
def send_heartbeat (s : HBState) (now : ℚ) : HBState :=
  if s.closed then s
  else reset_heartbeat { s with sent := s.sent ++ [pingFrame] } now

/-- The due time of a live timer handle. -/
def fireTime (s : HBState) (cb : Nat) : Option ℚ :=
  (s.timers.find? (fun p => p.1 == cb)).map Prod.snd

/-- Events driving the heartbeat bookkeeping: a frame arrives (the loop
calls `_reset_heartbeat`), a due timer fires, or the socket open/closed
flag changes. -/
inductive HBEvent where
  | recv (t : ℚ)
  | fire (cb : Nat)
  | setClosed (b : Bool)

/-- One step of the heartbeat machine. -/
def hbStep (s : HBState) : HBEvent → HBState
  | .recv t => reset_heartbeat s t
  | .fire cb =>
    match fireTime s cb with
    | some t => send_heartbeat { s with timers := s.timers.filter (fun p => p.1 != cb) } t
    | Option.none => s
  | .setClosed b => { s with closed := b }

/-- The state at construction: no timer, no handle, socket open. -/
def hbInit : HBState := ⟨[], Option.none, 0, false, []⟩

/-- Run the heartbeat machine over a list of events. -/
def hbRun (evs : List HBEvent) : HBState := evs.foldl hbStep hbInit

/-- The timers/handle invariant: either no live timer, or exactly one whose
handle is the one stored in `_heartbeat_cb`. -/
def hbInv (s : HBState) : Prop :=
  s.timers = [] ∨ ∃ cb t, s.timers = [(cb, t)] ∧ s.hbCb = some cb

/-! ## C2: reconnect delay -/

/-- C2 counterexample: the delay scheduled before successive reconnect
attempts is the constant RECONNECT_DELAY = 5, it does not grow, and a
failure while already in the starting state schedules no reconnect at
all. -/
theorem C2_counterexample :
    reconnectDelays 2 = [RECONNECT_DELAY, RECONNECT_DELAY] ∧
    RECONNECT_DELAY = 5 ∧ ¬ RECONNECT_DELAY < RECONNECT_DELAY ∧
    (runningExit WsState.starting).2 = Option.none :=
  ⟨rfl, rfl, by decide, rfl⟩

/-- C2 (amended): whenever the connection fails or closes while the client
is neither stopped nor already starting, a reconnect is scheduled after
the fixed constant delay RECONNECT_DELAY = 5 seconds; the delay is the
same for every attempt (no exponential backoff), and nothing is scheduled
from the stopped or starting states. -/
theorem C2_fixed_delay_reconnect :
    (∀ st : WsState, st ≠ WsState.stopped → st ≠ WsState.starting →
      runningExit st = (WsState.starting, some RECONNECT_DELAY)) ∧
    (runningExit WsState.starting).2 = Option.none ∧
    (runningExit WsState.stopped).2 = Option.none ∧
    (∀ n : Nat, reconnectDelays n = List.replicate n RECONNECT_DELAY) ∧
    (∀ (st : WsState) (token : Val) (msgs : List WSMsg) (fr : List Dict),
      st ≠ WsState.stopped → st ≠ WsState.starting →
      (running st token (.connected msgs) fr).scheduledDelay =
        some RECONNECT_DELAY ∧
      (running st token .connectError fr).scheduledDelay =
        some RECONNECT_DELAY) := by
  have hexit : ∀ st : WsState, st ≠ WsState.stopped → st ≠ WsState.starting →
      runningExit st = (WsState.starting, some RECONNECT_DELAY) := by
    intro st h1 h2
    cases st <;> simp_all [runningExit, retry]
  refine ⟨hexit, rfl, rfl, ?_, ?_⟩
  · intro n
    induction n with
    | zero => rfl
    | succ m ih =>
      rw [reconnectDelays, List.range_succ, List.filterMap_append,
        List.replicate_succ']
      exact congrArg₂ _ ih rfl
  · intro st token msgs fr h1 h2
    constructor <;> simp [running, hexit st h1 h2]

/-- Witness for C2 from the running state. -/
theorem C2_fixed_delay_reconnect_witness :
    runningExit WsState.running = (WsState.starting, some RECONNECT_DELAY) :=
  C2_fixed_delay_reconnect.1 WsState.running (by decide) (by decide)

/-! ## C4: frame dispatch in the receive loop -/

/-- C4: in the receive loop, a TEXT frame hands exactly its payload to the
callback and the loop goes on; PING is answered with one pong and PONG is
skipped, neither touching the callback; every other frame type ends the
loop with no callback and no pong. -/
theorem C4_frame_dispatch :
    ∀ (m : WSMsg) (rest : List WSMsg),
      (m.type = WSMsgType.text →
        (processMessages (m :: rest)).callbackArgs =
          m.data :: (processMessages rest).callbackArgs ∧
        (processMessages (m :: rest)).pongs = (processMessages rest).pongs ∧
        (processMessages (m :: rest)).terminated =
          (processMessages rest).terminated) ∧
      (m.type = WSMsgType.ping →
        (processMessages (m :: rest)).callbackArgs =
          (processMessages rest).callbackArgs ∧
        (processMessages (m :: rest)).pongs = (processMessages rest).pongs + 1 ∧
        (processMessages (m :: rest)).terminated =
          (processMessages rest).terminated) ∧
      (m.type = WSMsgType.pong →
        processMessages (m :: rest) = processMessages rest) ∧
      (m.type ≠ WSMsgType.text → m.type ≠ WSMsgType.ping →
        m.type ≠ WSMsgType.pong →
        processMessages (m :: rest) = ⟨[], 0, true⟩) := by
  intro m rest
  refine ⟨?_, ?_, ?_, ?_⟩
  · intro ht
    simp [processMessages, ht]
  · intro ht
    simp [processMessages, ht]
  · intro ht
    simp [processMessages, ht]
  · intro h1 h2 h3
    cases ht : m.type <;> simp_all [processMessages]

/-- Witness for C4 at a concrete TEXT frame. -/
theorem C4_frame_dispatch_witness :
    (processMessages [⟨WSMsgType.text, Val.num 1⟩, ⟨WSMsgType.close, Val.none⟩]).callbackArgs =
      Val.num 1 :: (processMessages [⟨WSMsgType.close, Val.none⟩]).callbackArgs ∧
    (processMessages [⟨WSMsgType.text, Val.num 1⟩, ⟨WSMsgType.close, Val.none⟩]).pongs =
      (processMessages [⟨WSMsgType.close, Val.none⟩]).pongs ∧
    (processMessages [⟨WSMsgType.text, Val.num 1⟩, ⟨WSMsgType.close, Val.none⟩]).terminated =
      (processMessages [⟨WSMsgType.close, Val.none⟩]).terminated :=
  (C4_frame_dispatch ⟨WSMsgType.text, Val.num 1⟩ [⟨WSMsgType.close, Val.none⟩]).1 rfl

/-! ## C3: heartbeat scheduling -/

theorem cancel_heartbeat_eq (s : HBState) (h : hbInv s) :
    cancel_heartbeat s =
      { timers := [], hbCb := Option.none, nextId := s.nextId,
        closed := s.closed, sent := s.sent } ∨
    (cancel_heartbeat s = s ∧ s.timers = [] ∧ s.hbCb = Option.none) := by
  rcases h with h | ⟨cb, t, ht, hcb⟩
  · rcases hcb : s.hbCb with _ | cb
    · refine Or.inr ⟨?_, h, rfl⟩
      simp [cancel_heartbeat, hcb]
    · refine Or.inl ?_
      simp [cancel_heartbeat, hcb, h]
  · refine Or.inl ?_
    simp [cancel_heartbeat, hcb, ht]

theorem reset_heartbeat_eq (s : HBState) (now : ℚ) (h : hbInv s) :
    reset_heartbeat s now =
      { timers := [(s.nextId, ((⌈now + HEARTBEAT_INTERVAL⌉ : ℤ) : ℚ))],
        hbCb := some s.nextId, nextId := s.nextId + 1,
        closed := s.closed, sent := s.sent } := by
  rcases cancel_heartbeat_eq s h with hc | ⟨hc, ht, hcb⟩
  · simp [reset_heartbeat, hc]
  · simp [reset_heartbeat, hc, ht]

theorem send_heartbeat_inv (s : HBState) (t : ℚ) (h : hbInv s) :
    hbInv (send_heartbeat s t) := by
  unfold send_heartbeat
  rcases hcl : s.closed with _ | _
  · simp only [Bool.false_eq_true, if_false]
    rw [reset_heartbeat_eq _ _
      (show hbInv ({ s with closed := false, sent := s.sent ++ [pingFrame] } : HBState) from h)]
    exact Or.inr ⟨_, _, rfl, rfl⟩
  · simpa using h

theorem hbInv_step (s : HBState) (e : HBEvent) (h : hbInv s) :
    hbInv (hbStep s e) := by
  cases e with
  | recv t =>
    rw [show hbStep s (HBEvent.recv t) = reset_heartbeat s t from rfl,
      reset_heartbeat_eq s t h]
    exact Or.inr ⟨s.nextId, _, rfl, rfl⟩
  | setClosed b =>
    rcases h with h | ⟨cb, t, ht, hcb⟩
    · exact Or.inl h
    · exact Or.inr ⟨cb, t, ht, hcb⟩
  | fire cb =>
    rcases hft : fireTime s cb with _ | t
    · simpa [hbStep, hft] using h
    · have hstep : hbStep s (HBEvent.fire cb) =
          send_heartbeat
            { s with timers := s.timers.filter (fun p => p.1 != cb) } t := by
        simp [hbStep, hft]
      rw [hstep]
      apply send_heartbeat_inv
      rcases h with h | ⟨cb', t', ht, hcb'⟩
      · exact Or.inl (by simp [h])
      · by_cases hcbeq : cb' = cb
        · subst hcbeq
          refine Or.inl ?_
          simp [ht, List.filter]
        · exfalso
          have hb : (cb' == cb) = false := by simpa using hcbeq
          rw [fireTime, ht] at hft
          simp [List.find?, hb] at hft

theorem hbInv_run (evs : List HBEvent) : hbInv (hbRun evs) := by
  suffices h : ∀ s, hbInv s → hbInv (evs.foldl hbStep s) from
    h hbInit (Or.inl rfl)
  induction evs with
  | nil => intro s hs; exact hs
  | cons e rest ih =>
    intro s hs
    exact ih _ (hbInv_step s e hs)

/-- C3 counterexample: a reset at loop time 1/2 schedules the next
heartbeat at ceil(1/2 + 25) = 26, which is not 25 seconds later. -/
theorem C3_counterexample :
    (hbStep hbInit (HBEvent.recv (1/2 : ℚ))).timers = [(0, (26 : ℚ))] ∧
    (26 : ℚ) ≠ (1/2 : ℚ) + 25 := by
  constructor
  · rw [show hbStep hbInit (HBEvent.recv (1/2 : ℚ)) =
        reset_heartbeat hbInit (1/2 : ℚ) from rfl,
      reset_heartbeat_eq hbInit _ (Or.inl rfl)]
    have hc : (⌈(1/2 : ℚ) + HEARTBEAT_INTERVAL⌉ : ℤ) = 26 := by
      norm_num [HEARTBEAT_INTERVAL, Int.ceil_eq_iff]
    rw [show hbInit.nextId = 0 from rfl, hc]
    norm_num
  · norm_num

/-- C3 (amended): at most one heartbeat timer is ever pending; every
received frame (and every sent ping) cancels the pending timer and
schedules the next heartbeat at ceil(now + 25), between 25 and 26 seconds
later; when the single pending timer fires with the socket open, the frame
with event ping is sent and the heartbeat is rescheduled at
ceil(fire time + 25); when it fires with the socket closed, nothing is
sent and no timer remains. -/
theorem C3_heartbeat :
    (∀ evs : List HBEvent, (hbRun evs).timers.length ≤ 1) ∧
    (∀ (s : HBState) (t : ℚ), hbInv s →
      (hbStep s (HBEvent.recv t)).timers =
        [(s.nextId, ((⌈t + HEARTBEAT_INTERVAL⌉ : ℤ) : ℚ))] ∧
      (hbStep s (HBEvent.recv t)).hbCb = some s.nextId ∧
      (hbStep s (HBEvent.recv t)).sent = s.sent ∧
      t + HEARTBEAT_INTERVAL ≤ ((⌈t + HEARTBEAT_INTERVAL⌉ : ℤ) : ℚ) ∧
      ((⌈t + HEARTBEAT_INTERVAL⌉ : ℤ) : ℚ) < t + HEARTBEAT_INTERVAL + 1) ∧
    (∀ (s : HBState) (cb : Nat) (t : ℚ), s.timers = [(cb, t)] →
      s.closed = false →
      (hbStep s (HBEvent.fire cb)).sent = s.sent ++ [pingFrame] ∧
      (hbStep s (HBEvent.fire cb)).timers =
        [(s.nextId, ((⌈t + HEARTBEAT_INTERVAL⌉ : ℤ) : ℚ))]) ∧
    (∀ (s : HBState) (cb : Nat) (t : ℚ), s.timers = [(cb, t)] →
      s.closed = true →
      (hbStep s (HBEvent.fire cb)).sent = s.sent ∧
      (hbStep s (HBEvent.fire cb)).timers = []) ∧
    HEARTBEAT_INTERVAL = 25 ∧
    dget pingFrame "event" = some (Val.str "ping") := by
  have hfire : ∀ (s : HBState) (cb : Nat) (t : ℚ), s.timers = [(cb, t)] →
      hbStep s (HBEvent.fire cb) =
        send_heartbeat { s with timers := [] } t := by
    intro s cb t hts
    have hft : fireTime s cb = some t := by
      rw [fireTime, hts]
      simp [List.find?]
    have hfil : s.timers.filter (fun p => p.1 != cb) = [] := by
      rw [hts]
      simp [List.filter]
    simp [hbStep, hft, hfil]
  refine ⟨?_, ?_, ?_, ?_, rfl, rfl⟩
  · intro evs
    rcases hbInv_run evs with h | ⟨cb, t, ht, _⟩
    · simp [h]
    · simp [ht]
  · intro s t h
    rw [show hbStep s (HBEvent.recv t) = reset_heartbeat s t from rfl,
      reset_heartbeat_eq s t h]
    exact ⟨rfl, rfl, rfl, Int.le_ceil _, Int.ceil_lt_add_one _⟩
  · intro s cb t hts hcl
    rw [hfire s cb t hts]
    have hrec : send_heartbeat ({ s with timers := [] } : HBState) t =
        reset_heartbeat ({ s with timers := [], sent := s.sent ++ [pingFrame] } : HBState) t := by
      simp [send_heartbeat, hcl]
    rw [hrec, reset_heartbeat_eq _ _ (Or.inl rfl)]
    exact ⟨rfl, rfl⟩
  · intro s cb t hts hcl
    rw [hfire s cb t hts]
    have hrec : send_heartbeat ({ s with timers := [] } : HBState) t =
        { s with timers := ([] : List (Nat × ℚ)) } := by
      simp [send_heartbeat, hcl]
    rw [hrec]
    exact ⟨rfl, rfl⟩

/-- Witness for C3: a reset from the initial state. -/
theorem C3_heartbeat_witness :
    (hbStep hbInit (HBEvent.recv 0)).timers =
      [(hbInit.nextId, ((⌈(0 : ℚ) + HEARTBEAT_INTERVAL⌉ : ℤ) : ℚ))] ∧
    (hbStep hbInit (HBEvent.recv 0)).hbCb = some hbInit.nextId ∧
    (hbStep hbInit (HBEvent.recv 0)).sent = hbInit.sent ∧
    (0 : ℚ) + HEARTBEAT_INTERVAL ≤ ((⌈(0 : ℚ) + HEARTBEAT_INTERVAL⌉ : ℤ) : ℚ) ∧
    ((⌈(0 : ℚ) + HEARTBEAT_INTERVAL⌉ : ℤ) : ℚ) < (0 : ℚ) + HEARTBEAT_INTERVAL + 1 :=
  C3_heartbeat.2.1 hbInit 0 (Or.inl rfl)

/-! ## REST client (pybhyve/client.py, pybhyve/const.py) -/

/-- pybhyve/const.py line 2. -/
def API_HOST : String := "https://api.orbitbhyve.com"
/-- pybhyve/const.py line 5. -/
def LOGIN_PATH : String := "/v1/session"
/-- pybhyve/const.py line 6. -/
def DEVICES_PATH : String := "/v1/devices"
/-- pybhyve/const.py line 8. -/
def API_POLL_PERIOD : ℚ := 300
/-- Modelled from the spec: client.py imports `TIMER_PROGRAMS_PATH` from
const.py but the const.py snapshot under src does not define it; it is the
REST path of the timer programs collection. -/
def TIMER_PROGRAMS_PATH : String := "/v1/sprinkler_timer_programs"

/-- The exception type that escapes the client: every failure is wrapped in
`RequestError`. -/
inductive PyErr where
  | requestError (msg : String)
  | clientError (msg : String)
deriving DecidableEq

/-- Whether an exception is the RequestError the client raises itself
(as opposed to an aiohttp client error propagating unwrapped). -/
def PyErr.isRequestError : PyErr → Bool
  | .requestError _ => true
  | _ => false

/-- Outcome of one HTTP exchange: a parsed JSON body, an error status
raised by `raise_for_status`, a body that fails to parse as JSON, or a
failure of the `session.request` call itself (DNS, refused connection,
timeout), which in client.py happens outside the try block. -/
inductive HttpOutcome where
  | ok (body : Val)
  | httpError (status : Nat)
  | badJson
  | connectError (msg : String)

/-- The try block over an obtained response: `raise_for_status` then
`resp.json(content_type=None)`.  Reached only once the connect phase has
produced a response; callers branch on `connectError` before this point,
and that case carries its message through unchanged. -/
def tryResponse : HttpOutcome → Except String Val
  | .ok body => .ok body
  | .httpError s => .error ("ClientResponseError " ++ toString s)
  | .badJson => .error "JSONDecodeError"
  | .connectError msg => .error msg

/-- `re.sub("https?://", "", ...)` as applied to the API host. -/
def stripScheme (s : String) : String :=
  (s.replace "https://" "").replace "http://" ""

/-- The User-Agent header of `_request` (lines 66-69). -/
def USER_AGENT : String :=
  "Mozilla/5.0 (X11; Linux x86_64) AppleWebKit/537.36 (KHTML, like Gecko) Chrome/72.0.3626.81 Safari/537.36"

/-- `self._token or ""` (line 64). -/
def tokenOrEmpty (token : Val) : Val :=
  if token.truthy then token else .str ""

/-- The headers built by `Client._request` (lines 59-69). -/
def requestHeaders (token : Val) : Dict :=
  [("Accept", .str "application/json, text/plain, */*"),
   ("Host", .str (stripScheme API_HOST)),
   ("Content-Type", .str "application/json; charset=utf-8;"),
   ("Referer", .str API_HOST),
   ("Orbit-Session-Token", tokenOrEmpty token),
   ("User-Agent", .str USER_AGENT)]

/-- What one call of `Client._request` does: the URL it targets, the
headers it sends, and its result, with every failure re-raised as
`RequestError` (lines 50-78). -/
structure RequestEffect where
  url : String
  headers : Dict
  result : Except PyErr Val

/-- `Client._request`: the `async with session.request(...)` sits outside
the try block (lines 71-73), so a connect-phase failure propagates
unwrapped; only failures of the response handling inside the try are
re-raised as RequestError. -/
def request (token : Val) (endpoint : String) (outcome : HttpOutcome) :
    RequestEffect :=
  let url := API_HOST ++ endpoint
  { url := url
    headers := requestHeaders token
    result :=
      match outcome with
      | .connectError msg => .error (.clientError msg)
      | _ =>
        match tryResponse outcome with
        | .ok v => .ok v
        | .error e =>
          .error (.requestError ("Error requesting data from " ++ url ++ ": " ++ e)) }

/-- The mutable attributes of `Client` the polling logic touches. -/
structure ClientState where
  token : Val
  devices : Val
  last_poll_devices : ℚ
  timer_programs : Val
  last_poll_programs : ℚ

/-- The state right after `Client.__init__`. -/
def initClient : ClientState := ⟨.none, .list [], 0, .list [], 0⟩

/-- Effect of one refresh call: the resulting state, whether an API request
was performed, and the exception it raised, if any. -/
structure RefreshEffect where
  state : ClientState
  requested : Bool
  raised : Option PyErr

/-- `Client._refresh_devices` (lines 80-91), with the current time and the
HTTP outcome the request would see. -/
def refresh_devices (s : ClientState) (force : Bool) (now : ℚ)
    (outcome : HttpOutcome) : RefreshEffect :=
  if !force && now - s.last_poll_devices < API_POLL_PERIOD then
    ⟨s, false, Option.none⟩
  else
    match (request s.token DEVICES_PATH outcome).result with
    | .ok v => ⟨{ s with devices := v, last_poll_devices := now }, true, Option.none⟩
    | .error e => ⟨s, true, some e⟩

/-- `Client._refresh_timer_programs` (lines 93-103). -/
def refresh_timer_programs (s : ClientState) (force : Bool) (now : ℚ)
    (outcome : HttpOutcome) : RefreshEffect :=
  if !force && now - s.last_poll_programs < API_POLL_PERIOD then
    ⟨s, false, Option.none⟩
  else
    match (request s.token TIMER_PROGRAMS_PATH outcome).result with
    | .ok v => ⟨{ s with timer_programs := v, last_poll_programs := now }, true, Option.none⟩
    | .error e => ⟨s, true, some e⟩

/-- Effect of reading a polling property: state, request flag, exception,
and the returned value. -/
structure PropEffect where
  state : ClientState
  requested : Bool
  raised : Option PyErr
  value : Val

/-- The `Client.devices` property (lines 160-164): refresh without force,
then return the cached list. -/
def devicesProperty (s : ClientState) (now : ℚ) (outcome : HttpOutcome) :
    PropEffect :=
  let r := refresh_devices s false now outcome
  ⟨r.state, r.requested, r.raised, r.state.devices⟩

/-- The `Client.timer_programs` property (lines 166-170). -/
def timerProgramsProperty (s : ClientState) (now : ℚ) (outcome : HttpOutcome) :
    PropEffect :=
  let r := refresh_timer_programs s false now outcome
  ⟨r.state, r.requested, r.raised, r.state.timer_programs⟩

/-- `body[key]` on a parsed JSON value: `Option.none` models the KeyError
or TypeError the Python subscript raises. -/
def pyGetItem (body : Val) (k : String) : Option Val :=
  match body with
  | .dict d => dget d k
  | _ => Option.none

/-- Effect of `Client.login`: the URL and JSON body it posts, the resulting
client state, whether the websocket was started, and the returned value or
raised exception. -/
structure LoginEffect where
  url : String
  postedJson : Val
  state : ClientState
  wsStarted : Bool
  result : Except PyErr Bool

/-- `Client.login` (lines 127-153): post the credentials, save the token
from the response, and start the websocket; wrap every failure inside the
try block in RequestError (the session.request call itself is outside the
try and its failures propagate unwrapped); return False without starting
the websocket when the saved token is null. -/
def login (username password : String) (s : ClientState)
    (outcome : HttpOutcome) : LoginEffect :=
  let url := API_HOST ++ LOGIN_PATH
  let posted := Val.dict
    [("session", .dict [("email", .str username), ("password", .str password)])]
  match outcome with
  | .connectError msg => ⟨url, posted, s, false, .error (.clientError msg)⟩
  | _ =>
  match tryResponse outcome with
  | .error e =>
    ⟨url, posted, s, false,
      .error (.requestError ("Error requesting data from " ++ url ++ ": " ++ e))⟩
  | .ok body =>
    match pyGetItem body "orbit_session_token" with
    | Option.none =>
      ⟨url, posted, s, false,
        .error (.requestError ("Error requesting data from " ++ url ++ ": KeyError"))⟩
    | some v =>
      match v with
      | .none => ⟨url, posted, { s with token := v }, false, .ok false⟩
      | _ => ⟨url, posted, { s with token := v }, true, .ok true⟩

/-! ## C6, C7, C8, C9 -/

/-- C6: reading the devices or timer_programs property within
API_POLL_PERIOD = 300 seconds of the last poll performs no API request and
returns the cached snapshot unchanged; after the period (the properties
never force), a fresh snapshot replaces the cache and the last-poll
timestamp is set to the current time. -/
theorem C6_poll_throttling :
    (∀ (s : ClientState) (now : ℚ) (outcome : HttpOutcome),
      now - s.last_poll_devices < API_POLL_PERIOD →
      devicesProperty s now outcome = ⟨s, false, Option.none, s.devices⟩) ∧
    (∀ (s : ClientState) (now : ℚ) (v : Val),
      ¬ now - s.last_poll_devices < API_POLL_PERIOD →
      devicesProperty s now (.ok v) =
        ⟨{ s with devices := v, last_poll_devices := now }, true, Option.none, v⟩) ∧
    (∀ (s : ClientState) (now : ℚ) (outcome : HttpOutcome),
      now - s.last_poll_programs < API_POLL_PERIOD →
      timerProgramsProperty s now outcome =
        ⟨s, false, Option.none, s.timer_programs⟩) ∧
    (∀ (s : ClientState) (now : ℚ) (v : Val),
      ¬ now - s.last_poll_programs < API_POLL_PERIOD →
      timerProgramsProperty s now (.ok v) =
        ⟨{ s with timer_programs := v, last_poll_programs := now }, true,
          Option.none, v⟩) ∧
    API_POLL_PERIOD = 300 := by
  refine ⟨?_, ?_, ?_, ?_, rfl⟩
  · intro s now outcome h
    simp [devicesProperty, refresh_devices, h]
  · intro s now v h
    simp [devicesProperty, refresh_devices, h, request, tryResponse]
  · intro s now outcome h
    simp [timerProgramsProperty, refresh_timer_programs, h]
  · intro s now v h
    simp [timerProgramsProperty, refresh_timer_programs, h, request, tryResponse]

/-- Witness for C6: a throttled read and a due read at concrete times. -/
theorem C6_poll_throttling_witness :
    devicesProperty initClient 10 (.ok (.list [])) =
      ⟨initClient, false, Option.none, initClient.devices⟩ ∧
    devicesProperty initClient 300 (.ok (.list [.str "dev"])) =
      ⟨{ initClient with devices := .list [.str "dev"], last_poll_devices := 300 },
        true, Option.none, .list [.str "dev"]⟩ :=
  ⟨C6_poll_throttling.1 initClient 10 (.ok (.list [])) (by norm_num [initClient, API_POLL_PERIOD]),
   C6_poll_throttling.2.1 initClient 300 (.list [.str "dev"])
     (by norm_num [initClient, API_POLL_PERIOD])⟩

/-- C9 counterexample: a connection-phase failure (DNS, refused
connection, timeout) happens inside _request, on the session.request call,
yet escapes unwrapped rather than as RequestError, because that call sits
outside the try block (client.py lines 71-73). -/
theorem C9_counterexample :
    (request Val.none DEVICES_PATH
      (.connectError "ClientConnectionError")).result =
      .error (PyErr.clientError "ClientConnectionError") ∧
    (PyErr.clientError "ClientConnectionError").isRequestError = false ∧
    (refresh_devices initClient false 1000
      (.connectError "ClientConnectionError")).raised =
      some (PyErr.clientError "ClientConnectionError") ∧
    (refresh_devices initClient false 1000
      (.connectError "ClientConnectionError")).requested = true := by
  refine ⟨rfl, rfl, ?_, ?_⟩ <;>
    norm_num [refresh_devices, initClient, API_POLL_PERIOD, request, tryResponse]

/-- C9 (amended): a failed device refresh is atomic: whenever
_refresh_devices performs the API request and the request fails, the
exception propagates and both the cached device list and the last-poll
timestamp keep their previous values, so the failed attempt does not count
as a poll.  Failures of the response handling inside the try block (an
error status, an unparseable body) are wrapped and re-raised as
RequestError; a failure of the session.request call itself (the connect
phase, outside the try) propagates unwrapped. -/
theorem C9_refresh_atomic_on_error :
    (∀ (token : Val) (endpoint : String) (st : Nat),
      ∃ msg, (request token endpoint (.httpError st)).result =
        .error (PyErr.requestError msg)) ∧
    (∀ (token : Val) (endpoint : String),
      ∃ msg, (request token endpoint .badJson).result =
        .error (PyErr.requestError msg)) ∧
    (∀ (token : Val) (endpoint : String) (msg : String),
      (request token endpoint (.connectError msg)).result =
        .error (PyErr.clientError msg)) ∧
    (∀ (s : ClientState) (force : Bool) (now : ℚ) (outcome : HttpOutcome)
        (e : PyErr),
      (refresh_devices s force now outcome).raised = some e →
      (refresh_devices s force now outcome).requested = true ∧
      (refresh_devices s force now outcome).state = s ∧
      (refresh_devices s force now outcome).state.devices = s.devices ∧
      (refresh_devices s force now outcome).state.last_poll_devices =
        s.last_poll_devices) := by
  refine ⟨fun token endpoint st => ⟨_, rfl⟩, fun token endpoint => ⟨_, rfl⟩,
    fun token endpoint msg => rfl, ?_⟩
  intro s force now outcome e hr
  by_cases hth : (!force && now - s.last_poll_devices < API_POLL_PERIOD) = true
  · rw [refresh_devices, if_pos hth] at hr
    exact absurd hr (by simp)
  · rw [refresh_devices, if_neg hth] at hr ⊢
    cases outcome with
    | ok v =>
      rw [show (request s.token DEVICES_PATH (.ok v)).result = .ok v from rfl] at hr ⊢
      exact absurd hr (by simp)
    | httpError st => exact ⟨rfl, rfl, rfl, rfl⟩
    | badJson => exact ⟨rfl, rfl, rfl, rfl⟩
    | connectError msg => exact ⟨rfl, rfl, rfl, rfl⟩

/-- Witness for C9: a connect-phase failure at a concrete state and time
leaves the cache and the timestamp untouched. -/
theorem C9_refresh_atomic_on_error_witness :
    (refresh_devices initClient false 1000 (.connectError "timeout")).requested =
      true ∧
    (refresh_devices initClient false 1000 (.connectError "timeout")).state =
      initClient ∧
    (refresh_devices initClient false 1000
      (.connectError "timeout")).state.devices = initClient.devices ∧
    (refresh_devices initClient false 1000
      (.connectError "timeout")).state.last_poll_devices =
      initClient.last_poll_devices :=
  C9_refresh_atomic_on_error.2.2.2 initClient false 1000
    (.connectError "timeout") (PyErr.clientError "timeout")
    (by norm_num [refresh_devices, initClient, API_POLL_PERIOD, request, tryResponse])

/-- C7 counterexample: a successful login response whose
orbit_session_token is null makes login save the null token and return
False, without raising and without starting the websocket. -/
theorem C7_counterexample :
    (login "u" "p" initClient
      (.ok (.dict [("orbit_session_token", Val.none)]))).result = .ok false ∧
    (login "u" "p" initClient
      (.ok (.dict [("orbit_session_token", Val.none)]))).wsStarted = false :=
  ⟨rfl, rfl⟩

/-- C7 (amended): login posts the stored credentials to the login endpoint;
on a successful response with a non-null orbit_session_token it saves the
token, starts the websocket and returns True; on a successful response
whose token is null it saves the null and returns False without starting
the websocket and without raising; if the HTTP request fails, the body
cannot be parsed, or the token key is missing, it raises RequestError and
the session token keeps its previous value (so it remains unset). -/
theorem C7_login :
    (∀ (u p : String) (s : ClientState) (outcome : HttpOutcome),
      (login u p s outcome).url = API_HOST ++ LOGIN_PATH ∧
      (login u p s outcome).postedJson =
        .dict [("session", .dict [("email", .str u), ("password", .str p)])]) ∧
    (∀ (u p : String) (s : ClientState) (body v : Val),
      pyGetItem body "orbit_session_token" = some v → v ≠ .none →
      (login u p s (.ok body)).state.token = v ∧
      (login u p s (.ok body)).wsStarted = true ∧
      (login u p s (.ok body)).result = .ok true) ∧
    (∀ (u p : String) (s : ClientState) (body : Val),
      pyGetItem body "orbit_session_token" = some .none →
      (login u p s (.ok body)).state.token = .none ∧
      (login u p s (.ok body)).wsStarted = false ∧
      (login u p s (.ok body)).result = .ok false) ∧
    (∀ (u p : String) (s : ClientState) (outcome : HttpOutcome),
      (outcome = .badJson ∨ (∃ st, outcome = .httpError st) ∨
        (∃ body, outcome = .ok body ∧
          pyGetItem body "orbit_session_token" = Option.none)) →
      (∃ msg, (login u p s outcome).result = .error (.requestError msg)) ∧
      (login u p s outcome).state.token = s.token ∧
      (login u p s outcome).wsStarted = false) := by
  refine ⟨?_, ?_, ?_, ?_⟩
  · intro u p s outcome
    cases outcome with
    | ok body =>
      rcases hb : pyGetItem body "orbit_session_token" with _ | v
      · exact ⟨by simp [login, tryResponse, hb], by simp [login, tryResponse, hb]⟩
      · cases v <;> exact ⟨by simp [login, tryResponse, hb], by simp [login, tryResponse, hb]⟩
    | httpError st => exact ⟨rfl, rfl⟩
    | badJson => exact ⟨rfl, rfl⟩
    | connectError msg => exact ⟨rfl, rfl⟩
  · intro u p s body v hb hv
    rw [show login u p s (.ok body) =
      (match pyGetItem body "orbit_session_token" with
       | Option.none =>
         ⟨API_HOST ++ LOGIN_PATH,
           Val.dict [("session", .dict [("email", .str u), ("password", .str p)])],
           s, false,
           .error (.requestError ("Error requesting data from " ++
             (API_HOST ++ LOGIN_PATH) ++ ": KeyError"))⟩
       | some v =>
         match v with
         | .none =>
           ⟨API_HOST ++ LOGIN_PATH,
             Val.dict [("session", .dict [("email", .str u), ("password", .str p)])],
             { s with token := v }, false, .ok false⟩
         | _ =>
           ⟨API_HOST ++ LOGIN_PATH,
             Val.dict [("session", .dict [("email", .str u), ("password", .str p)])],
             { s with token := v }, true, .ok true⟩ : LoginEffect) from rfl, hb]
    cases v with
    | none => exact absurd rfl hv
    | str a => exact ⟨rfl, rfl, rfl⟩
    | num a => exact ⟨rfl, rfl, rfl⟩
    | bool a => exact ⟨rfl, rfl, rfl⟩
    | list a => exact ⟨rfl, rfl, rfl⟩
    | dict a => exact ⟨rfl, rfl, rfl⟩
  · intro u p s body hb
    simp [login, tryResponse, hb]
  · intro u p s outcome hout
    rcases hout with h | ⟨st, h⟩ | ⟨body, h, hb⟩ <;> subst h
    · exact ⟨⟨_, rfl⟩, rfl, rfl⟩
    · exact ⟨⟨_, rfl⟩, rfl, rfl⟩
    · refine ⟨⟨"Error requesting data from " ++ (API_HOST ++ LOGIN_PATH) ++
          ": KeyError", ?_⟩,
        by simp [login, tryResponse, hb], by simp [login, tryResponse, hb]⟩
      simp [login, tryResponse, hb]

/-- Witness for C7 at a concrete successful login. -/
theorem C7_login_witness :
    (login "user" "pw" initClient
      (.ok (.dict [("orbit_session_token", Val.str "tok")]))).state.token =
        Val.str "tok" ∧
    (login "user" "pw" initClient
      (.ok (.dict [("orbit_session_token", Val.str "tok")]))).wsStarted = true ∧
    (login "user" "pw" initClient
      (.ok (.dict [("orbit_session_token", Val.str "tok")]))).result = .ok true :=
  C7_login.2.1 "user" "pw" initClient
    (.dict [("orbit_session_token", Val.str "tok")]) (Val.str "tok") rfl
    (by simp)

/-- C8: every request built by `_request` carries the saved token in the
Orbit-Session-Token header (the empty string when no token is saved), and
the first frame sent on every new websocket connection is the
app_connection frame carrying the token as orbit_session_token. -/
theorem C8_token_attached :
    (∀ (token : Val) (endpoint : String) (outcome : HttpOutcome),
      dget (request token endpoint outcome).headers "Orbit-Session-Token" =
        some (tokenOrEmpty token)) ∧
    (∀ (endpoint : String) (outcome : HttpOutcome),
      dget (request Val.none endpoint outcome).headers "Orbit-Session-Token" =
        some (.str "")) ∧
    (∀ (st : WsState) (token : Val) (msgs : List WSMsg) (fr : List Dict),
      (running st token (.connected msgs) fr).sent.head? =
        some (appConnectionFrame token)) ∧
    (∀ token : Val,
      dget (appConnectionFrame token) "orbit_session_token" = some token ∧
      dget (appConnectionFrame token) "event" = some (.str "app_connection")) := by
  refine ⟨?_, ?_, ?_, ?_⟩
  · intro token endpoint outcome
    simp [request, requestHeaders, dget]
  · intro endpoint outcome
    simp [request, requestHeaders, dget, tokenOrEmpty, Val.truthy]
  · intro st token msgs fr
    simp [running]
  · intro token
    exact ⟨by simp [appConnectionFrame, dget], rfl⟩

/-! ## util.py: constant_program_id over MD5 -/

/-- Reduce to a 32 bit word. -/
def w32 (n : Nat) : Nat := n % 4294967296

/-- Bitwise complement of a 32 bit word. -/
def not32 (n : Nat) : Nat := n ^^^ 4294967295

/-- Left rotation of a 32 bit word. -/
def rotl32 (x c : Nat) : Nat := w32 ((x <<< c) ||| (x >>> (32 - c)))

/-- UTF-8 bytes of one unicode code point, as Python `.encode("utf-8")`. -/
def utf8Bytes (c : Nat) : List Nat :=
  if c < 128 then [c]
  else if c < 2048 then [192 ||| (c >>> 6), 128 ||| (c &&& 63)]
  else if c < 65536 then
    [224 ||| (c >>> 12), 128 ||| ((c >>> 6) &&& 63), 128 ||| (c &&& 63)]
  else
    [240 ||| (c >>> 18), 128 ||| ((c >>> 12) &&& 63),
     128 ||| ((c >>> 6) &&& 63), 128 ||| (c &&& 63)]

/-- UTF-8 encoding of a string. -/
def strBytes (s : String) : List Nat :=
  (s.data.map (fun ch => utf8Bytes ch.toNat)).flatten

/-- The MD5 sine-derived constant table K (RFC 1321). -/
def md5K : List Nat :=
  [0xd76aa478, 0xe8c7b756, 0x242070db, 0xc1bdceee,
   0xf57c0faf, 0x4787c62a, 0xa8304613, 0xfd469501,
   0x698098d8, 0x8b44f7af, 0xffff5bb1, 0x895cd7be,
   0x6b901122, 0xfd987193, 0xa679438e, 0x49b40821,
   0xf61e2562, 0xc040b340, 0x265e5a51, 0xe9b6c7aa,
   0xd62f105d, 0x02441453, 0xd8a1e681, 0xe7d3fbc8,
   0x21e1cde6, 0xc33707d6, 0xf4d50d87, 0x455a14ed,
   0xa9e3e905, 0xfcefa3f8, 0x676f02d9, 0x8d2a4c8a,
   0xfffa3942, 0x8771f681, 0x6d9d6122, 0xfde5380c,
   0xa4beea44, 0x4bdecfa9, 0xf6bb4b60, 0xbebfbc70,
   0x289b7ec6, 0xeaa127fa, 0xd4ef3085, 0x04881d05,
   0xd9d4d039, 0xe6db99e5, 0x1fa27cf8, 0xc4ac5665,
   0xf4292244, 0x432aff97, 0xab9423a7, 0xfc93a039,
   0x655b59c3, 0x8f0ccc92, 0xffeff47d, 0x85845dd1,
   0x6fa87e4f, 0xfe2ce6e0, 0xa3014314, 0x4e0811a1,
   0xf7537e82, 0xbd3af235, 0x2ad7d2bb, 0xeb86d391]

/-- The MD5 per-round left-rotation amounts. -/
def md5S : List Nat :=
  [7, 12, 17, 22, 7, 12, 17, 22, 7, 12, 17, 22, 7, 12, 17, 22,
   5, 9, 14, 20, 5, 9, 14, 20, 5, 9, 14, 20, 5, 9, 14, 20,
   4, 11, 16, 23, 4, 11, 16, 23, 4, 11, 16, 23, 4, 11, 16, 23,
   6, 10, 15, 21, 6, 10, 15, 21, 6, 10, 15, 21, 6, 10, 15, 21]

/-- The MD5 round functions F, G, H, I selected by round index. -/
def md5F (i b c d : Nat) : Nat :=
  if i < 16 then (b &&& c) ||| (not32 b &&& d)
  else if i < 32 then (d &&& b) ||| (not32 d &&& c)
  else if i < 48 then (b ^^^ c) ^^^ d
  else c ^^^ (b ||| not32 d)

/-- The MD5 message word index per round. -/
def md5G (i : Nat) : Nat :=
  if i < 16 then i
  else if i < 32 then (5 * i + 1) % 16
  else if i < 48 then (3 * i + 5) % 16
  else (7 * i) % 16

/-- The four MD5 registers. -/
structure MD5State where
  a : Nat
  b : Nat
  c : Nat
  d : Nat
deriving DecidableEq

/-- The MD5 initial register values. -/
def md5Init : MD5State := ⟨0x67452301, 0xefcdab89, 0x98badcfe, 0x10325476⟩

/-- One MD5 round over message words `m`. -/
def md5Step (m : Nat → Nat) (st : MD5State) (i : Nat) : MD5State :=
  let f := w32 (md5F i st.b st.c st.d + st.a + md5K.getD i 0 + m (md5G i))
  ⟨st.d, w32 (st.b + rotl32 f (md5S.getD i 0)), st.b, st.c⟩

/-- Process one 512 bit chunk. -/
def md5Chunk (st : MD5State) (m : Nat → Nat) : MD5State :=
  let r := (List.range 64).foldl (md5Step m) st
  ⟨w32 (st.a + r.a), w32 (st.b + r.b), w32 (st.c + r.c), w32 (st.d + r.d)⟩

/-- MD5 padding: a 0x80 byte, zeros to 56 mod 64, then the bit length as
eight little-endian bytes. -/
def md5Pad (msg : List Nat) : List Nat :=
  let len := msg.length
  let padLen := (120 - (len + 1) % 64) % 64
  msg ++ [128] ++ List.replicate padLen 0 ++
    (List.range 8).map (fun i => ((8 * len) >>> (8 * i)) % 256)

/-- Little-endian 32 bit message word `i` of chunk `c` of a byte list. -/
def md5Words (bytes : List Nat) (c i : Nat) : Nat :=
  bytes.getD (64 * c + 4 * i) 0 +
  256 * bytes.getD (64 * c + 4 * i + 1) 0 +
  65536 * bytes.getD (64 * c + 4 * i + 2) 0 +
  16777216 * bytes.getD (64 * c + 4 * i + 3) 0

/-- The MD5 digest registers of a byte message. -/
def md5Digest (msg : List Nat) : MD5State :=
  let padded := md5Pad msg
  (List.range (padded.length / 64)).foldl
    (fun st c => md5Chunk st (md5Words padded c)) md5Init

/-- A lowercase hex digit. -/
def hexDigit (n : Nat) : Char :=
  if n < 10 then Char.ofNat (48 + n) else Char.ofNat (87 + n)

/-- Two lowercase hex digits of a byte. -/
def byteHex (b : Nat) : List Char := [hexDigit (b / 16), hexDigit (b % 16)]

/-- The four little-endian bytes of a 32 bit word. -/
def wordLEBytes (x : Nat) : List Nat :=
  [x % 256, (x >>> 8) % 256, (x >>> 16) % 256, (x >>> 24) % 256]

/-- `hashlib.md5(s.encode("utf-8")).hexdigest()`. -/
def md5hex (s : String) : String :=
  let st := md5Digest (strBytes s)
  String.mk (((wordLEBytes st.a ++ wordLEBytes st.b ++
    wordLEBytes st.c ++ wordLEBytes st.d).map byteHex).flatten)

/-- util.py `constant_program_id`: for a smart program the id is the MD5
hex digest of "<device_id>:smart_program", otherwise the program id is
returned unchanged. -/
def constant_program_id (device_id program_id : String)
    (is_smart_program : Bool := false) : String :=
  if is_smart_program then md5hex (device_id ++ ":smart_program")
  else program_id

set_option maxRecDepth 100000 in
/-- MD5 sanity anchor: the model reproduces the reference digest of the
empty message. -/
theorem md5hex_empty_vector :
    md5hex "" = "d41d8cd98f00b204e9800998ecf8427e" := by decide

set_option maxRecDepth 100000 in
/-- C10: constant_program_id is a pure function of its inputs: for smart
programs it returns the MD5 hex digest of "<device_id>:smart_program",
which depends only on the device id (any two program ids collapse to the
same constant id); for non-smart programs the program id is returned
unchanged.  At the concrete device id "device1" the digest agrees with
hashlib.md5. -/
theorem C10_constant_program_id :
    (∀ d p : String,
      constant_program_id d p true = md5hex (d ++ ":smart_program")) ∧
    (∀ d p q : String,
      constant_program_id d p true = constant_program_id d q true) ∧
    (∀ d p : String, constant_program_id d p false = p) ∧
    constant_program_id "device1" "zone-program-7" true =
      "b1386176c37fc66b33579414ea3e719e" ∧
    constant_program_id "device1" "zone-program-7" false = "zone-program-7" := by
  refine ⟨fun d p => rfl, fun d p q => rfl, fun d p => rfl, ?_, rfl⟩
  decide
